import Mathlib

/-!
Verification of the blendparse library (blendparse.py), a reader for the
.blend binary container format.

The embedding below is a shallow model of the Python source.  Files are byte
lists (each entry intended to be < 256), the implicit file cursor of the
Python `io.FileIO` object is made an explicit `pos : Nat` argument, and
Python exceptions become constructors of `PyError`.  A computation outcome is
a `POut`: it either returns a value, raises a Python exception, or fails to
terminate (`hang`, used for the infinite loop that `Blendfile._read_c_string`
enters at end of file).

Modelling conventions, stated once:
- `read(n)` on a `FileIO` returns up to `n` bytes and advances the cursor by
  the number of bytes actually read; at end of file it returns zero bytes.
- UTF-8 decoding is modelled for the ASCII subset only: a byte list decodes
  iff every byte is below 128.  Every string occurring in the repository and
  in the concrete inputs used here is ASCII, so the restriction is invisible
  to the claims.
- Python dictionaries are insertion-ordered association lists; assignment to
  an existing key replaces the value in place, otherwise appends.
-/

/-- Python exceptions that the source can raise, by class.
`blendDecodeError` is the only error class the library itself defines;
all other constructors are builtin or library exceptions that escape
undeclared. -/
inductive PyError where
  | blendDecodeError (msg : String)
  | valueError (msg : String)
  | attributeError
  | assertionError
  | structError
  | unicodeDecodeError
  | keyError
  | indexError
  | osError
deriving DecidableEq

/-- Outcome of running a piece of the Python source: a result, a raised
exception, or nontermination. -/
inductive POut (α : Type) where
  | ok : α → POut α
  | err : PyError → POut α
  | hang : POut α
deriving DecidableEq

def POut.bind {α β : Type} : POut α → (α → POut β) → POut β
  | .ok a, f => f a
  | .err e, _ => .err e
  | .hang, _ => .hang

/-- True exactly on the error class the library defines (`BlendDecodeError`);
used to separate typed library failures from stray builtin exceptions. -/
def PyError.isBlendDecodeError : PyError → Bool
  | .blendDecodeError _ => true
  | _ => false

/-- Bytes of an ASCII string literal. -/
def strBytes (s : String) : List Nat :=
  s.toList.map Char.toNat

/-- A 4-byte little-endian encoding, used to build concrete input files. -/
def le4 (n : Nat) : List Nat :=
  [n % 256, n / 256 % 256, n / 65536 % 256, n / 16777216 % 256]

/-- A 2-byte little-endian encoding, used to build concrete input files. -/
def le2 (n : Nat) : List Nat :=
  [n % 256, n / 256 % 256]

/-- The bytes `read(n)` returns when the cursor is at `pos`: up to `n` bytes,
fewer at end of file. -/
def readBytes (file : List Nat) (pos n : Nat) : List Nat :=
  (file.drop pos).take n

/-- `read(n)` with the advanced cursor: the cursor moves by the number of
bytes actually read. -/
def readAt (file : List Nat) (pos n : Nat) : List Nat × Nat :=
  (readBytes file pos n, pos + (readBytes file pos n).length)

/-- `int.from_bytes(bs, endianness)` with the default (unsigned)
signedness, as the source calls it everywhere. -/
def intFromBytes (e : String) (bs : List Nat) : Nat :=
  if e = "little" then Nat.ofDigits 256 bs else Nat.ofDigits 256 bs.reverse

/-- The signed 4-byte decode the `struct` module performs for format
character i. -/
def signed4 (e : String) (bs : List Nat) : Int :=
  if intFromBytes e bs < 2 ^ 31 then (intFromBytes e bs : Int)
  else (intFromBytes e bs : Int) - 2 ^ 32

/-- `bytes.decode("utf-8")`, modelled on the ASCII subset: `none` is a
`UnicodeDecodeError`. -/
def decodeUtf8Ascii (bs : List Nat) : Option String :=
  if bs.all (fun b => decide (b < 128)) then some (String.mk (bs.map Char.ofNat))
  else none

/-- An insertion-ordered Python dictionary with string keys. -/
abbrev Dict (α : Type) := List (String × α)

def dictLookup {α : Type} (d : Dict α) (k : String) : Option α :=
  match d with
  | [] => none
  | (k2, v) :: rest => if k2 = k then some v else dictLookup rest k

/-- Python dictionary assignment `d[k] = v`: replace in place when the key
exists, append otherwise. -/
def dictInsert {α : Type} (d : Dict α) (k : String) (v : α) : Dict α :=
  match d with
  | [] => [(k, v)]
  | (k2, w) :: rest => if k2 = k then (k, v) :: rest else (k2, w) :: dictInsert rest k v

/-- Python list indexing with negative-index wrap-around; out of range raises
`IndexError`. -/
def pyIndex {α : Type} (l : List α) (i : Int) : POut α :=
  if i < 0 then
    match l.get? ((l.length : Int) + i).toNat with
    | some a => if (l.length : Int) + i < 0 then .err .indexError else .ok a
    | none => .err .indexError
  else
    match l.get? i.toNat with
    | some a => .ok a
    | none => .err .indexError

/-- The 4-byte re-alignment `_load_sdna` performs between catalog sections. -/
def align4 (pos : Nat) : Nat :=
  if pos % 4 = 0 then pos else pos + (4 - pos % 4)

/-- Loop body of `Blendfile._read_c_string`, with the remaining byte count
made explicit.  While bytes remain, `read(1)` yields one byte: a null byte
ends the loop, anything else is accumulated.  Once the end of file is
reached, `read(1)` returns zero bytes forever while the loop keeps testing
for a null byte, so the call never returns: `.hang`. -/
def readCStringGo (file : List Nat) : Nat → Nat → List Nat → POut (String × Nat)
  | _, 0, _ => .hang
  | pos, rem + 1, acc =>
    if file.getD pos 0 = 0 then
      match decodeUtf8Ascii acc with
      | some s => .ok (s, pos + 1)
      | none => .err .unicodeDecodeError
    else readCStringGo file (pos + 1) rem (acc ++ [file.getD pos 0])

/-- `Blendfile._read_c_string`, reading from cursor `pos`.  Returns the
decoded string together with the new cursor position (one past the null
byte). -/
def readCString (file : List Nat) (pos : Nat) : POut (String × Nat) :=
  readCStringGo file pos (file.length - pos) []

/-- The parsed file header: the attributes `_load_header` sets on the
`Blendfile` object. -/
structure FHeader where
  pointer_size : Nat
  endianness : String
  version : String
deriving DecidableEq

/-- The version attribute: the source formats the three digit bytes as
v digit dot digit digit. -/
def versionString (v : List Nat) : String :=
  String.mk ([Char.ofNat 118] ++ (v.take 1).map Char.ofNat ++ [Char.ofNat 46]
    ++ (v.drop 1).map Char.ofNat)

/-- `Blendfile._load_header`.  Unpacks the fixed 12-byte preamble
(format 7scc3s; fewer than 12 bytes raise a struct unpack error), compares
the identifier bytes, maps the pointer-size byte (45 is the minus sign,
95 the underscore), then tests the endianness byte against 118 (lowercase v).
On any other endianness byte the source evaluates `header.endianess` -- a
misspelling of the namedtuple field `endianness` -- so both 86 (uppercase V)
and every other byte raise `AttributeError`, not the documented
`BlendDecodeError`.  Finally the three version bytes must all be ASCII
digits. -/
def loadHeader (file : List Nat) : POut FHeader :=
  if file.length < 12 then .err .structError
  else if file.take 7 ≠ strBytes "BLENDER" then
    .err (.blendDecodeError "File identifier is not BLENDER!")
  else
    (if file.getD 7 0 = 45 then (.ok 8 : POut Nat)
     else if file.getD 7 0 = 95 then .ok 4
     else .err (.blendDecodeError "Invalid pointer size character")).bind fun ps =>
    (if file.getD 8 0 = 118 then (.ok "little" : POut String)
     else .err .attributeError).bind fun endianness =>
    if ((file.drop 9).take 3).all (fun b => decide (48 ≤ b) && decide (b ≤ 57)) then
      .ok { pointer_size := ps, endianness := endianness,
            version := versionString ((file.drop 9).take 3) }
    else .err (.blendDecodeError "Invalid version string!")

/-- One decoded file block header, exactly the `_BlockHeader` namedtuple:
code, body size, recorded address (kept as raw bytes by the `ps`s struct
format, as in the source), SDNA struct index, and instance count.  The
integer fields use struct format i and are signed. -/
structure BlockHeader where
  blockcode : String
  size : Int
  address : List Nat
  sdna_index : Int
  count : Int
deriving DecidableEq

/-- Loop of `Blendfile._read_block_headers` over file blocks, with explicit
cursor, fuel (the Python loop can run unboundedly when block sizes are
negative, so the model returns `.hang` on fuel exhaustion), and the directory
built so far.  Each iteration: `read` one block header of 16 + ps bytes --
zero bytes mean end of file and normal termination, a short non-empty read
raises the struct unpack error -- then decode the code (a failure is
re-raised as `BlendDecodeError`), record the body offset, store the record in
the directory (overwriting any previous record with the same code), and seek
forward by the size field. -/
def scanBlocks (file : List Nat) (e : String) (ps : Nat) :
    Nat → Nat → Dict (BlockHeader × Nat) → POut (Dict (BlockHeader × Nat))
  | 0, _, _ => .hang
  | fuel + 1, pos, dir =>
    if (readBytes file pos (16 + ps)).length = 0 then .ok dir
    else if (readBytes file pos (16 + ps)).length < 16 + ps then .err .structError
    else
      match decodeUtf8Ascii ((readBytes file pos (16 + ps)).take 4) with
      | none => .err (.blendDecodeError "Cannot decode block code!")
      | some code =>
        let hb := readBytes file pos (16 + ps)
        let hdr : BlockHeader :=
          { blockcode := code
            size := signed4 e ((hb.drop 4).take 4)
            address := (hb.drop 8).take ps
            sdna_index := signed4 e ((hb.drop (8 + ps)).take 4)
            count := signed4 e ((hb.drop (12 + ps)).take 4) }
        let bodyOffset := pos + (16 + ps)
        let target : Int := (bodyOffset : Int) + hdr.size
        if target < 0 then .err .osError
        else scanBlocks file e ps fuel target.toNat (dictInsert dir code (hdr, bodyOffset))

/-- `Blendfile._read_block_headers`: scan from offset 12 with an empty
directory.  The fuel bound covers every terminating run on non-negative
sizes, where each iteration consumes at least one byte of file. -/
def readBlockHeaders (file : List Nat) (e : String) (ps : Nat) :
    POut (Dict (BlockHeader × Nat)) :=
  scanBlocks file e ps (file.length + 1) 12 []

/-- The four SDNA tables `_load_sdna` assembles. -/
structure Sdna where
  names : List String
  types : List String
  tlen : Dict Nat
  structs : Dict (Dict String)
deriving DecidableEq

/-- `self.read(4).decode("utf-8")` for a catalog section tag. -/
def readTag (file : List Nat) (pos : Nat) : POut (String × Nat) :=
  match decodeUtf8Ascii (readBytes file pos 4) with
  | some s => .ok (s, pos + (readBytes file pos 4).length)
  | none => .err .unicodeDecodeError

/-- Read `n` consecutive null-terminated strings, as the NAME and TYPE
section loops do. -/
def readCStrings (file : List Nat) : Nat → Nat → POut (List String × Nat)
  | 0, pos => .ok ([], pos)
  | n + 1, pos =>
    (readCString file pos).bind fun sp =>
    (readCStrings file n sp.2).bind fun rp =>
    .ok (sp.1 :: rp.1, rp.2)

/-- The TLEN loop: one 2-byte length per type, in type-table order, written
into a dictionary keyed by the type name. -/
def readTlens (file : List Nat) (e : String) :
    List String → Nat → Dict Nat → Dict Nat × Nat
  | [], pos, d => (d, pos)
  | t :: ts, pos, d =>
    readTlens file e ts (pos + (readBytes file pos 2).length)
      (dictInsert d t (intFromBytes e (readBytes file pos 2)))

/-- The inner STRC loop over one structure definition: per field, a 2-byte
type index then a 2-byte name index, each resolved immediately through the
type and name tables (an out-of-range index raises `IndexError`). -/
def readFields (file : List Nat) (e : String) (names types : List String) :
    Nat → Nat → Dict String → POut (Dict String × Nat)
  | 0, pos, fs => .ok (fs, pos)
  | n + 1, pos, fs =>
    let (tb, pos2) := readAt file pos 2
    let (nb, pos3) := readAt file pos2 2
    match types.get? (intFromBytes e tb), names.get? (intFromBytes e nb) with
    | some ty, some nm => readFields file e names types n pos3 (dictInsert fs nm ty)
    | _, _ => .err .indexError

/-- The outer STRC loop: per structure, a 2-byte type index and a 2-byte
field count, then the field pairs; the structure is stored under the name
the type table gives for its index. -/
def readStructs (file : List Nat) (e : String) (names types : List String) :
    Nat → Nat → Dict (Dict String) → POut (Dict (Dict String) × Nat)
  | 0, pos, d => .ok (d, pos)
  | n + 1, pos, d =>
    let (tb, pos2) := readAt file pos 2
    let (cb, pos3) := readAt file pos2 2
    (readFields file e names types (intFromBytes e cb) pos3 []).bind fun fp =>
    match types.get? (intFromBytes e tb) with
    | some nm => readStructs file e names types n fp.2 (dictInsert d nm fp.1)
    | none => .err .indexError

/-- `Blendfile._load_sdna`.  Looks up the DNA1 block (its absence is
re-raised as `ValueError`), seeks to the body, then skips the 4-byte SDNA
identifier and the 4-byte NAME tag without validating either.  Reads the
name strings, re-aligns to 4 bytes, and for each of the TYPE, TLEN and STRC
sections reads the 4-byte tag and checks it with a bare assertion: a
mismatch raises an untyped `AssertionError` carrying no message.  Returns
the assembled tables together with the final cursor position (the cursor is
an object-level side effect in the source and later code depends on where
this pass leaves it). -/
def loadSdna (file : List Nat) (e : String) (dir : Dict (BlockHeader × Nat)) :
    POut (Sdna × Nat) :=
  match dictLookup dir "DNA1" with
  | none => .err (.valueError "Missing DNA1 file block.")
  | some ho =>
    let pos := ho.2 + 4 + 4
    let (cntb, pos2) := readAt file pos 4
    (readCStrings file (intFromBytes e cntb) pos2).bind fun np =>
    (readTag file (align4 np.2)).bind fun tp =>
    if tp.1 ≠ "TYPE" then .err .assertionError
    else
      let (cntb2, pos3) := readAt file tp.2 4
      (readCStrings file (intFromBytes e cntb2) pos3).bind fun yp =>
      (readTag file (align4 yp.2)).bind fun lp =>
      if lp.1 ≠ "TLEN" then .err .assertionError
      else
        let (tlen, pos4) := readTlens file e yp.1 lp.2 []
        (readTag file (align4 pos4)).bind fun sp =>
        if sp.1 ≠ "STRC" then .err .assertionError
        else
          let (cntb3, pos5) := readAt file sp.2 4
          (readStructs file e np.1 yp.1 (intFromBytes e cntb3) pos5 []).bind fun stp =>
          .ok ({ names := np.1, types := yp.1, tlen := tlen, structs := stp.1 }, stp.2)

/-- The Python values `Blendfile._construct_value` can return: the
(always empty) list built by the array branch, an unloaded `BlendStruct`
bound to a type name and captured offset, an integer, the raw bytes of a
single-character read, a decoded C string, or -- in the fallback branch --
the type name string itself, which the source returns after skipping the
value. -/
inductive Value where
  | arr (elems : List Value)
  | handle (type : String) (offset : Nat)
  | intVal (n : Nat)
  | byteVal (bs : List Nat)
  | strVal (s : String)
  | typeName (t : String)

/-- The for-loop of seeks in the array branch of `_construct_value`:
`length` successive relative seeks of `size` bytes. -/
def skipElems (size : Nat) : Nat → Nat → Nat
  | 0, pos => pos
  | n + 1, pos => skipElems size n (pos + size)

/-- `Blendfile._construct_value`.  Branches in source order: an array
length above one looks up the type length, seeks past every element and
returns the empty list (the element append is commented out in the source);
a struct-table type captures the offset, seeks past the declared length and
returns an unloaded handle; one of the four recognized integer type names
reads the declared length and decodes it with `int.from_bytes` (unsigned,
file endianness); the char type reads an inline C string when the decorated
name was pointer-marked and a single raw byte otherwise; anything else looks
up the declared length, seeks past it and returns the type name.  A type
name missing from the length table raises `KeyError`. -/
def constructValue (sdna : Sdna) (e : String) (file : List Nat) (pos : Nat)
    (type : String) (is_ptr : Bool) (length : Nat) : POut (Value × Nat) :=
  if 1 < length then
    match dictLookup sdna.tlen type with
    | none => .err .keyError
    | some size => .ok (.arr [], skipElems size length pos)
  else if (dictLookup sdna.structs type).isSome then
    match dictLookup sdna.tlen type with
    | none => .err .keyError
    | some size => .ok (.handle type pos, pos + size)
  else if type ∈ ["short", "int", "long", "long long"] then
    match dictLookup sdna.tlen type with
    | none => .err .keyError
    | some size =>
      .ok (.intVal (intFromBytes e (readBytes file pos size)),
           pos + (readBytes file pos size).length)
  else if type = "char" then
    if is_ptr then
      (readCString file pos).bind fun sp => .ok (.strVal sp.1, sp.2)
    else
      .ok (.byteVal (readBytes file pos 1), pos + (readBytes file pos 1).length)
  else
    match dictLookup sdna.tlen type with
    | none => .err .keyError
    | some size => .ok (.typeName type, pos + size)

def digitsToNat (ds : List Char) : Nat :=
  ds.foldl (fun acc c => acc * 10 + (c.toNat - 48)) 0

/-- One character of the scan for bracketed digit groups.  The state is the
numbers found so far plus, when inside a candidate match, the digits read
since the opening bracket (character 91).  A digit (48 to 57) extends the
candidate, a closing bracket (93) after at least one digit completes it, an
opening bracket restarts a candidate, anything else abandons it.  Since the
characters a failed candidate consumed are digits and digits cannot start a
match, reconsidering only the current character reproduces exactly the
non-overlapping left-to-right matches of the pattern bracket-digits-bracket
that `re.findall` returns. -/
def arrStep (st : List Nat × Option (List Char)) (c : Char) :
    List Nat × Option (List Char) :=
  match st.2 with
  | none => if c.toNat = 91 then (st.1, some []) else (st.1, none)
  | some ds =>
    if 48 ≤ c.toNat ∧ c.toNat ≤ 57 then (st.1, some (ds ++ [c]))
    else if c.toNat = 93 ∧ ds ≠ [] then (st.1 ++ [digitsToNat ds], none)
    else if c.toNat = 91 then (st.1, some [])
    else (st.1, none)

/-- `re.findall` of the bracketed-number pattern over a decorated field
name. -/
def arrayLengths (name : String) : List Nat :=
  (name.toList.foldl arrStep ([], none)).1

/-- Field loop of `Blendfile._load_struct`: per declared field, extract the
array annotations from the decorated name (more than one bracket group
raises `ValueError`), note whether the name is pointer-decorated, and build
the value, threading the cursor.  Results go into the structure dictionary
keyed by the decorated name. -/
def loadStructFields (sdna : Sdna) (e : String) (file : List Nat) :
    List (String × String) → Nat → Dict Value → POut (Dict Value × Nat)
  | [], pos, st => .ok (st, pos)
  | (name, ty) :: rest, pos, st =>
    if 1 < (arrayLengths name).length then
      .err (.valueError "Cannot handle nested array.")
    else
      let length := if (arrayLengths name).length = 1 then (arrayLengths name).headD 1 else 1
      (constructValue sdna e file pos ty (name.startsWith "*") length).bind fun vp =>
      loadStructFields sdna e file rest vp.2 (dictInsert st name vp.1)

/-- `Blendfile._load_struct`.  The `offset` parameter is accepted and
documented in the source but never used: decoding starts at the current
cursor `pos`, wherever the previous file operation left it. -/
def loadStruct (sdna : Sdna) (e : String) (file : List Nat) (pos : Nat)
    (struct_name : String) (offset : Nat) : POut (Dict Value × Nat) :=
  match dictLookup sdna.structs struct_name with
  | none => .err .keyError
  | some fields => loadStructFields sdna e file fields pos []

/-- `Blendfile.get_blocks`: the directory entries whose code starts with the
filter string, in directory order; each carries the data its loader closure
captures (the block header and the body offset). -/
def getBlocks (dir : Dict (BlockHeader × Nat)) (filt : String) :
    Dict (BlockHeader × Nat) :=
  dir.filter fun p => p.1.startsWith filt

/-- `Blendfile._load_block`, with the generator run to completion by a
consumer that performs no file operations between the yields (as
`list(...)` does).  After the closed-file check, the struct name is taken
from the struct-table key list at the block's SDNA index, and the generator
yields `count` unloaded handles.  Every yield captures `self.tell()` -- the
cursor as the generator left it, here `cursor` -- and the `offset` parameter
holding the body offset is never used, so all handles are bound to the same
position. -/
def loadBlockList (closed : Bool) (sdna : Sdna) (cursor : Nat)
    (header : BlockHeader) (offset : Nat) : POut (List (String × Nat)) :=
  if closed then .err (.valueError "I/O operation on a closed file.")
  else
    (pyIndex (sdna.structs.map Prod.fst) header.sdna_index).bind fun name =>
    .ok (List.replicate header.count.toNat (name, cursor))

/-- `Blendfile.__init__`: load the header, scan the block directory, load
the SDNA catalog.  Returns the parsed header, the directory, the catalog and
the cursor position the catalog pass ends at. -/
def blendfileInit (file : List Nat) :
    POut (FHeader × Dict (BlockHeader × Nat) × Sdna × Nat) :=
  (loadHeader file).bind fun h =>
  (readBlockHeaders file h.endianness h.pointer_size).bind fun dir =>
  (loadSdna file h.endianness dir).bind fun sp =>
  .ok (h, dir, sp.1, sp.2)

/-- The mutable state of a `BlendStruct`: the `_structure` cache (`None`
until first access) plus an instrumentation counter of how many times the
load callback has run.  The callback value `cb` stands for the field mapping
the single materialization produces; `_load_struct` always returns a
dictionary, never `None`, so a completed load is exactly `some cb`. -/
structure LazyStruct (σ : Type) where
  cached : Option σ
  calls : Nat

/-- The two access paths the claims name: `load()` and `__getitem__` (the
other mapping methods share the identical guard). -/
inductive SAccess where
  | force
  | getfield
deriving DecidableEq

/-- The shared guard of `BlendStruct.load` and `BlendStruct.__getitem__`:
when the cache is `None`, run the callback once and fill it; afterwards
answer from the cache. -/
def lazyStep {σ : Type} (cb : σ) (s : LazyStruct σ) : σ × LazyStruct σ :=
  match s.cached with
  | none => (cb, { cached := some cb, calls := s.calls + 1 })
  | some v => (v, s)

/-- Run a sequence of accesses against one handle, collecting the value each
access observes. -/
def lazyRun {σ : Type} (cb : σ) : List SAccess → LazyStruct σ → List σ × LazyStruct σ
  | [], s => ([], s)
  | _ :: as, s =>
    ((lazyStep cb s).1 :: (lazyRun cb as (lazyStep cb s).2).1,
     (lazyRun cb as (lazyStep cb s).2).2)

/-- Modelled from the spec: the signed two's-complement reading of a byte
string that the claim C8 asserts for integer types not prefixed with
unsigned.  This is the comparison point for the signedness claim; the
source itself never decodes signed. -/
def specSignedFromBytes (e : String) (bs : List Nat) : Int :=
  if intFromBytes e bs < 2 ^ (8 * bs.length - 1) then (intFromBytes e bs : Int)
  else (intFromBytes e bs : Int) - 2 ^ (8 * bs.length)

/-- Replace the bytes of `l` at position `i` by `repl`, used to corrupt
individual catalog tags in concrete inputs. -/
def spliceAt (l : List Nat) (i : Nat) (repl : List Nat) : List Nat :=
  l.take i ++ repl ++ l.drop (i + repl.length)

/-! Concrete input files.  They all use a 4-byte pointer size (underscore
marker) and little endianness, so a block header is 20 bytes.  The catalog
body below declares one name `value`, two types `int` (length 4) and `Foo`
(length 4), and one structure `Foo` with the single field `value` of type
`int`; it is 60 bytes long. -/

def fooCatalogBody : List Nat :=
  strBytes "SDNA" ++ strBytes "NAME" ++ le4 1 ++ strBytes "value" ++ [0] ++ [0, 0]
  ++ strBytes "TYPE" ++ le4 2 ++ strBytes "int" ++ [0] ++ strBytes "Foo" ++ [0]
  ++ strBytes "TLEN" ++ le2 4 ++ le2 4
  ++ strBytes "STRC" ++ le4 1 ++ le2 1 ++ le2 1 ++ le2 0 ++ le2 0

/-- The catalog the body above parses to. -/
def fooSdna : Sdna :=
  { names := ["value"]
    types := ["int", "Foo"]
    tlen := [("int", 4), ("Foo", 4)]
    structs := [("Foo", [("value", "int")])] }

/-- Scenario D input: a `TEST` block of type `Foo` with instance count 2,
whose 8-byte body at offset 32 holds the little-endian integers 7 and 9,
followed by the `DNA1` catalog block with body at offset 60.  120 bytes. -/
def scenarioDFile : List Nat :=
  strBytes "BLENDER_v100"
  ++ strBytes "TEST" ++ le4 8 ++ le4 0 ++ le4 0 ++ le4 2
  ++ le4 7 ++ le4 9
  ++ strBytes "DNA1" ++ le4 60 ++ le4 0 ++ le4 0 ++ le4 1
  ++ fooCatalogBody

def scenarioDTestHeader : BlockHeader :=
  { blockcode := "TEST", size := 8, address := [0, 0, 0, 0], sdna_index := 0, count := 2 }

def scenarioDDnaHeader : BlockHeader :=
  { blockcode := "DNA1", size := 60, address := [0, 0, 0, 0], sdna_index := 0, count := 1 }

/-- A file with two block records sharing the code `TEST`, distinguishable
by their address bytes (1 versus 2); both have empty bodies. -/
def dupCodeFile : List Nat :=
  strBytes "BLENDER_v100"
  ++ strBytes "TEST" ++ le4 0 ++ le4 1 ++ le4 0 ++ le4 0
  ++ strBytes "TEST" ++ le4 0 ++ le4 2 ++ le4 0 ++ le4 0

/-- A file holding only the `DNA1` catalog block, body at offset 32: within
it the SDNA identifier is at 32, the NAME tag at 36, the TYPE tag at 52, the
TLEN tag at 68 and the STRC tag at 76. -/
def catFile : List Nat :=
  strBytes "BLENDER_v100"
  ++ strBytes "DNA1" ++ le4 60 ++ le4 0 ++ le4 0 ++ le4 1
  ++ fooCatalogBody

/-- The block directory `catFile` scans to. -/
def catDir : Dict (BlockHeader × Nat) :=
  [("DNA1", scenarioDDnaHeader, 32)]

/-- A file cut off five bytes into the first block header. -/
def truncFile : List Nat :=
  strBytes "BLENDER_v100" ++ strBytes "TEST" ++ [8]

/-- A minimal catalog for field-level tests: `int` of length 4, no
structures. -/
def ptrSdna : Sdna :=
  { names := [], types := [], tlen := [("int", 4)], structs := [] }

/-- A catalog declaring both `int` and `unsigned int` with length 4, for the
signedness claim. -/
def intSdna : Sdna :=
  { names := [], types := [], tlen := [("int", 4), ("unsigned int", 4)], structs := [] }

/-! Helper lemmas. -/

/-- Looking up a key immediately after a dictionary assignment to that key
returns exactly the assigned value. -/
theorem dictLookup_dictInsert {α : Type} (d : Dict α) (k : String) (v : α) :
    dictLookup (dictInsert d k v) k = some v := by
  induction d with
  | nil => simp [dictInsert, dictLookup]
  | cons p rest ih =>
    obtain ⟨k2, w⟩ := p
    by_cases h : k2 = k
    · simp [dictInsert, dictLookup, h]
    · simp [dictInsert, dictLookup, h, ih]

/-- A `read(n)` returns `n` bytes, or every remaining byte when fewer than
`n` remain. -/
theorem readBytes_length (file : List Nat) (pos n : Nat) :
    (readBytes file pos n).length = min n (file.length - pos) := by
  simp [readBytes]

/-- The seek loop of the array branch advances the cursor by element count
times element size. -/
theorem skipElems_eq (size : Nat) : ∀ (n pos : Nat), skipElems size n pos = pos + n * size := by
  intro n
  induction n with
  | zero => intro pos; simp [skipElems]
  | succ m ih =>
    intro pos
    rw [skipElems, ih]
    ring

/-- Once a handle is loaded with the callback value, further accesses leave
the state unchanged and observe the cached value. -/
theorem lazyRun_loaded {σ : Type} (cb : σ) :
    ∀ (ops : List SAccess) (c : Nat),
      lazyRun cb ops ⟨some cb, c⟩ = (List.replicate ops.length cb, ⟨some cb, c⟩) := by
  intro ops
  induction ops with
  | nil => intro c; rfl
  | cons a as ih =>
    intro c
    simp [lazyRun, lazyStep, ih, List.replicate]

/-- The C-string loop body never returns while every remaining byte is
non-null. -/
theorem readCStringGo_hang (file : List Nat) :
    ∀ (rem pos : Nat) (acc : List Nat),
      (∀ i, i < rem → file.getD (pos + i) 0 ≠ 0) →
      readCStringGo file pos rem acc = POut.hang := by
  intro rem
  induction rem with
  | zero => intro pos acc h; rfl
  | succ m ih =>
    intro pos acc h
    have h0 : ¬ file.getD pos 0 = 0 := by
      have := h 0 (by omega)
      simpa using this
    rw [readCStringGo, if_neg h0]
    refine ih (pos + 1) _ (fun i hi => ?_)
    have e : pos + 1 + i = pos + (i + 1) := by omega
    rw [e]
    exact h (i + 1) (by omega)

/-! Claim theorems. -/

/-- C1: the claim says `get_blocks` yields, per block, `instance_count`
handles at sequential offsets starting at the block body offset, the field
read returning the little-endian integer stored there.  The code contradicts
its own docstrings: the `offset` parameters of `_load_block` and
`_load_struct` are never used.  First conjunct: `loadStruct` is literally
independent of its `offset` argument.  On the Scenario D file, opening ends
with the cursor at 120; the two yielded handles are both bound to 120 rather
than to the body offsets 32 and 36, and forcing the first reads at
end of file, producing field value 0 while the integer at the body offset
is 7. -/
theorem c1_scenario_d_code_bug :
    (∀ (sdna : Sdna) (e : String) (file : List Nat) (pos o1 o2 : Nat) (n : String),
        loadStruct sdna e file pos n o1 = loadStruct sdna e file pos n o2)
  ∧ blendfileInit scenarioDFile
      = .ok (⟨4, "little", "v1.00"⟩,
             [("TEST", scenarioDTestHeader, 32), ("DNA1", scenarioDDnaHeader, 60)],
             fooSdna, 120)
  ∧ loadBlockList false fooSdna 120 scenarioDTestHeader 32
      = .ok [("Foo", 120), ("Foo", 120)]
  ∧ (120 : Nat) ≠ 32
  ∧ loadStruct fooSdna "little" scenarioDFile 120 "Foo" 32
      = .ok ([("value", Value.intVal 0)], 120)
  ∧ intFromBytes "little" (readBytes scenarioDFile 32 4) = 7 :=
  ⟨fun _ _ _ _ _ _ _ => rfl, rfl, rfl, by decide, rfl, rfl⟩

/-- C2 counterexample: the claim says a directory over two records sharing a
code preserves both.  Scanning `dupCodeFile` (two `TEST` records, addresses
1 and 2) leaves a single-entry directory holding only the second record, so
the first is discarded and unreachable. -/
theorem c2_duplicate_code_discarded :
    readBlockHeaders dupCodeFile "little" 4
      = .ok [("TEST", ⟨"TEST", 0, [2, 0, 0, 0], 0, 0⟩, 52)]
  ∧ (⟨"TEST", 0, [2, 0, 0, 0], 0, 0⟩ : BlockHeader) ≠ ⟨"TEST", 0, [1, 0, 0, 0], 0, 0⟩ :=
  ⟨by decide, by decide⟩

/-- C2 amended: the directory maps each code to the most recent record with
that code; an assignment for an existing code overwrites (generic last-wins
law for the dictionary), and the duplicate-code scan performs exactly the
two inserts, ending with the second record as the only reachable one. -/
theorem c2_directory_last_wins :
    (∀ (α : Type) (d : Dict α) (k : String) (v1 v2 : α),
        dictLookup (dictInsert (dictInsert d k v1) k v2) k = some v2)
  ∧ readBlockHeaders dupCodeFile "little" 4
      = .ok (dictInsert (dictInsert [] "TEST" (⟨"TEST", 0, [1, 0, 0, 0], 0, 0⟩, 32))
               "TEST" (⟨"TEST", 0, [2, 0, 0, 0], 0, 0⟩, 52))
  ∧ dictLookup
      (dictInsert (dictInsert [] "TEST" ((⟨"TEST", 0, [1, 0, 0, 0], 0, 0⟩ : BlockHeader), 32))
        "TEST" (⟨"TEST", 0, [2, 0, 0, 0], 0, 0⟩, 52)) "TEST"
      = some (⟨"TEST", 0, [2, 0, 0, 0], 0, 0⟩, 52) :=
  ⟨fun _ d k v1 v2 => dictLookup_dictInsert (dictInsert d k v1) k v2,
   by decide, by decide⟩

/-- C3 counterexample: the claim says a pointer-decorated non-char field
decodes a pointer-width integer (8 bytes in an 8-byte-pointer file) and
returns a pointer-reference value.  On a pointer-decorated `int` field the
code decodes an ordinary 4-byte integer (the declared type length, not the
pointer width -- `_construct_value` is not even passed the pointer width)
and advances 4 bytes, not 8. -/
theorem c3_pointer_field_counterexample :
    constructValue ptrSdna "little" (le4 7 ++ le4 9) 0 "int" true 1
      = .ok (.intVal 7, 4)
  ∧ (4 : Nat) ≠ 8 :=
  ⟨rfl, by decide⟩

/-- C3 amended: the pointer decoration is consulted only for the char type
(where it selects an inline C-string read); for every other type the field
decodes exactly as if it were not pointer-decorated -- no address is read,
no pointer value or dangling marker exists. -/
theorem c3_ptr_ignored_outside_char (sdna : Sdna) (e : String) (file : List Nat)
    (pos : Nat) (t : String) (n : Nat) (h : t ≠ "char") :
    constructValue sdna e file pos t true n = constructValue sdna e file pos t false n := by
  unfold constructValue
  split_ifs <;> rfl

/-- C3 witness. -/
theorem c3_ptr_witness :
    ("int" : String) ≠ "char"
  ∧ constructValue ptrSdna "little" [] 0 "int" true 1
      = constructValue ptrSdna "little" [] 0 "int" false 1 :=
  ⟨by decide, c3_ptr_ignored_outside_char ptrSdna "little" [] 0 "int" 1 (by decide)⟩

/-- C4 counterexample: the claim says decoding a field with one bracketed
array annotation of length N returns N decoded elements.  Decoding an `int`
array of declared length 2 advances the cursor by the full 8 bytes but
returns the empty sequence: zero elements, not 2 (the element append is
commented out in the source). -/
theorem c4_array_counterexample :
    constructValue ptrSdna "little" (le4 7 ++ le4 9) 0 "int" false 2
      = .ok (.arr [], 8)
  ∧ List.length ([] : List Value) ≠ 2 :=
  ⟨rfl, by decide⟩

/-- C4 amended: for an array annotation of length at least 2 over a type of
declared length L, the cursor advances by exactly N times L bytes but the
returned sequence is empty -- the elements are skipped, not decoded.  (For
length exactly 1 the code decodes a single bare value instead of a
sequence.) -/
theorem c4_array_skips_elements (sdna : Sdna) (e : String) (file : List Nat)
    (pos : Nat) (t : String) (ip : Bool) (n L : Nat) (h2 : 2 ≤ n)
    (hL : dictLookup sdna.tlen t = some L) :
    constructValue sdna e file pos t ip n = .ok (.arr [], pos + n * L) := by
  unfold constructValue
  rw [if_pos (by omega), hL]
  simp [skipElems_eq]

/-- C4 witness. -/
theorem c4_array_witness :
    (2 ≤ 2)
  ∧ dictLookup ptrSdna.tlen "int" = some 4
  ∧ constructValue ptrSdna "little" (le4 7 ++ le4 9) 0 "int" false 2
      = .ok (.arr [], 0 + 2 * 4) :=
  ⟨by decide, by decide,
   c4_array_skips_elements ptrSdna "little" (le4 7 ++ le4 9) 0 "int" false 2 4
     (by decide) (by decide)⟩

/-- C5: the claim says endianness byte uppercase V records big endianness
and any other byte gives the typed `MalformedHeader` failure
(`BlendDecodeError`).  The source misspells the namedtuple attribute in the
elif (`header.endianess`), so uppercase V -- and every byte other than
lowercase v -- raises `AttributeError` instead; only lowercase v parses. -/
theorem c5_endianness_typo :
    loadHeader (strBytes "BLENDER-V293") = .err .attributeError
  ∧ loadHeader (strBytes "BLENDER-v293")
      = .ok { pointer_size := 8, endianness := "little", version := "v2.93" }
  ∧ loadHeader (strBytes "BLENDER-x293") = .err .attributeError :=
  ⟨by decide, by decide, by decide⟩

/-- C6 counterexample: the claim says a file truncated mid-record fails with
the typed `TruncatedContainer` error.  On a file cut off five bytes into a
block header the scan raises the struct module unpack error, which is not an
instance of the library error class (the only typed error the library
defines), so the failure is untyped. -/
theorem c6_truncation_counterexample :
    readBlockHeaders truncFile "little" 4 = .err .structError
  ∧ PyError.isBlendDecodeError .structError = false :=
  ⟨by decide, rfl⟩

/-- C6 amended: zero bytes available where a block code was expected is a
normal, clean termination of the scan returning the directory built so far;
a non-empty short read (fewer remaining bytes than the 16 + pointer-size
record needs) raises the struct unpack error -- an untyped failure -- and
never yields a zero-filled or partial record. -/
theorem c6_scan_termination (file : List Nat) (e : String) (ps pos fuel : Nat)
    (dir : Dict (BlockHeader × Nat)) :
    (file.length ≤ pos → scanBlocks file e ps (fuel + 1) pos dir = .ok dir)
  ∧ (pos < file.length → file.length - pos < 16 + ps →
       scanBlocks file e ps (fuel + 1) pos dir = .err .structError) := by
  constructor
  · intro h
    have h0 : (readBytes file pos (16 + ps)).length = 0 := by
      rw [readBytes_length]; omega
    simp [scanBlocks, h0]
  · intro h1 h2
    have hlen : (readBytes file pos (16 + ps)).length = file.length - pos := by
      rw [readBytes_length]; omega
    rw [scanBlocks, if_neg (by rw [hlen]; omega), if_pos (by rw [hlen]; omega)]

/-- C6 witness. -/
theorem c6_scan_witness :
    scanBlocks ([] : List Nat) "little" 4 1 0 [] = .ok []
  ∧ scanBlocks dupCodeFile "little" 4 1 50 [] = .err .structError :=
  ⟨(c6_scan_termination [] "little" 4 0 0 []).1 (by decide),
   (c6_scan_termination dupCodeFile "little" 4 50 0 []).2 (by decide) (by decide)⟩

/-- C7 counterexample: the claim says any unexpected section tag (including
the catalog identifier) makes parsing fail with the typed `CorruptCatalog`
error.  Replacing the 4-byte SDNA identifier with XXXX leaves parsing fully
successful: the tag is skipped, never validated. -/
theorem c7_unvalidated_tag_counterexample :
    loadSdna (spliceAt catFile 32 (strBytes "XXXX")) "little" catDir
      = .ok (fooSdna, 92) := by
  decide

/-- C7 amended: the parser skips the 4-byte catalog identifier and the NAME
tag without validating either (corrupting them changes nothing), and a
mismatched TYPE, TLEN or STRC tag fails with a bare `AssertionError`
carrying no message -- naming neither the expected nor the found tag -- not
a typed catalog error. -/
theorem c7_tag_handling :
    loadSdna (spliceAt catFile 32 (strBytes "ABCD")) "little" catDir = .ok (fooSdna, 92)
  ∧ loadSdna (spliceAt catFile 36 (strBytes "EFGH")) "little" catDir = .ok (fooSdna, 92)
  ∧ loadSdna (spliceAt catFile 52 (strBytes "TYPX")) "little" catDir = .err .assertionError
  ∧ loadSdna (spliceAt catFile 68 (strBytes "TLEX")) "little" catDir = .err .assertionError
  ∧ loadSdna (spliceAt catFile 76 (strBytes "STRX")) "little" catDir = .err .assertionError :=
  ⟨by decide, by decide, by decide, by decide, by decide⟩

/-- C8 counterexample: the claim says recognized integer types decode signed
unless the name has an unsigned prefix, and that unsigned-prefixed variants
are recognized.  The code decodes `int` as an unsigned value (all-ones bytes
give 4294967295, where the claimed signed reading is -1), and
`unsigned int` falls through to the skip branch, returning the type-name
marker instead of any integer. -/
theorem c8_signedness_counterexample :
    constructValue intSdna "little" [255, 255, 255, 255] 0 "int" false 1
      = .ok (.intVal 4294967295, 4)
  ∧ specSignedFromBytes "little" [255, 255, 255, 255] = -1
  ∧ ((4294967295 : Int) ≠ -1)
  ∧ constructValue intSdna "little" [255, 255, 255, 255] 0 "unsigned int" false 1
      = .ok (.typeName "unsigned int", 4) :=
  ⟨rfl, by decide, by decide, rfl⟩

/-- C8 amended: the recognized integer family is exactly short, int, long
and long long; each decodes the declared byte length with the file
endianness as an UNSIGNED value -- in particular the result always lies in
the unsigned range below 2 to the 8 L. -/
theorem c8_unsigned_decode (sdna : Sdna) (e : String) (file : List Nat) (pos : Nat)
    (t : String) (ip : Bool) (L : Nat)
    (hT : t ∈ ["short", "int", "long", "long long"])
    (hS : (dictLookup sdna.structs t).isSome = false)
    (hL : dictLookup sdna.tlen t = some L)
    (hB : ∀ b ∈ file, b < 256) :
    constructValue sdna e file pos t ip 1
      = .ok (.intVal (intFromBytes e (readBytes file pos L)),
             pos + (readBytes file pos L).length)
  ∧ intFromBytes e (readBytes file pos L) < 2 ^ (8 * L) := by
  have key : ∀ l : List Nat, (∀ b ∈ l, b < 256) → Nat.ofDigits 256 l < 2 ^ (8 * l.length) := by
    intro l hl
    have h1 : Nat.ofDigits 256 l < 256 ^ l.length :=
      Nat.ofDigits_lt_base_pow_length (by norm_num) hl
    calc Nat.ofDigits 256 l < 256 ^ l.length := h1
      _ = 2 ^ (8 * l.length) := by rw [pow_mul]; norm_num
  have hsub : ∀ b ∈ readBytes file pos L, b < 256 := by
    intro b hb
    exact hB b (List.drop_subset pos file (List.take_subset L (file.drop pos) hb))
  have hlen : (readBytes file pos L).length ≤ L := by
    rw [readBytes_length]; omega
  constructor
  · unfold constructValue
    rw [if_neg (by omega), if_neg (by simp [hS]), if_pos hT, hL]
  · have hlt : intFromBytes e (readBytes file pos L) < 2 ^ (8 * (readBytes file pos L).length) := by
      unfold intFromBytes
      by_cases he : e = "little"
      · rw [if_pos he]
        exact key _ hsub
      · rw [if_neg he]
        have := key (readBytes file pos L).reverse (by simpa using hsub)
        simpa using this
    calc intFromBytes e (readBytes file pos L)
        < 2 ^ (8 * (readBytes file pos L).length) := hlt
      _ ≤ 2 ^ (8 * L) := Nat.pow_le_pow_right (by norm_num) (by omega)

/-- C8 witness. -/
theorem c8_unsigned_witness :
    ("int" ∈ ["short", "int", "long", "long long"])
  ∧ (dictLookup intSdna.structs "int").isSome = false
  ∧ dictLookup intSdna.tlen "int" = some 4
  ∧ (∀ b ∈ [255, 255, 255, 255], b < 256)
  ∧ (constructValue intSdna "little" [255, 255, 255, 255] 0 "int" false 1
       = .ok (.intVal (intFromBytes "little" (readBytes [255, 255, 255, 255] 0 4)),
              0 + (readBytes [255, 255, 255, 255] 0 4).length)
     ∧ intFromBytes "little" (readBytes [255, 255, 255, 255] 0 4) < 2 ^ (8 * 4)) :=
  ⟨by decide, by decide, by decide, by decide,
   c8_unsigned_decode intSdna "little" [255, 255, 255, 255] 0 "int" false 4
     (by decide) (by decide) (by decide) (by decide)⟩

/-- C9: forcing the same handle any number of times -- by explicit load or
by field access -- runs the load callback exactly once, and every access
observes the value that single run produced. -/
theorem c9_materialize_once (σ : Type) (cb : σ) (ops : List SAccess) (h : ops ≠ []) :
    (lazyRun cb ops ⟨none, 0⟩).2.calls = 1
  ∧ ∀ v ∈ (lazyRun cb ops ⟨none, 0⟩).1, v = cb := by
  cases ops with
  | nil => exact absurd rfl h
  | cons a as =>
    have step : lazyStep cb (⟨none, 0⟩ : LazyStruct σ) = (cb, ⟨some cb, 1⟩) := rfl
    have run := lazyRun_loaded cb as 1
    constructor
    · simp [lazyRun, step, run]
    · intro v hv
      simp [lazyRun, step, run] at hv
      rcases hv with h1 | h1
      · exact h1
      · exact h1.2

/-- C9 witness. -/
theorem c9_materialize_once_witness :
    ([SAccess.force, SAccess.getfield, SAccess.force] ≠ [])
  ∧ ((lazyRun 5 [SAccess.force, SAccess.getfield, SAccess.force]
        (⟨none, 0⟩ : LazyStruct Nat)).2.calls = 1
     ∧ ∀ v ∈ (lazyRun 5 [SAccess.force, SAccess.getfield, SAccess.force]
          (⟨none, 0⟩ : LazyStruct Nat)).1, v = 5) :=
  ⟨by decide, c9_materialize_once Nat 5 _ (by decide)⟩

/-- C10: reading a null-terminated string from a position after which no
null byte occurs before end of file never returns: at end of file `read(1)`
yields no bytes, the null test keeps failing, and the loop spins forever
(`.hang`) instead of raising any error. -/
theorem c10_cstring_no_null_hangs (file : List Nat) (pos : Nat)
    (h : ∀ i, i < file.length - pos → file.getD (pos + i) 0 ≠ 0) :
    readCString file pos = POut.hang :=
  readCStringGo_hang file (file.length - pos) pos [] h

/-- C10 witness. -/
theorem c10_cstring_witness :
    (∀ i, i < ([65, 66] : List Nat).length - 0 → ([65, 66] : List Nat).getD (0 + i) 0 ≠ 0)
  ∧ readCString [65, 66] 0 = POut.hang :=
  ⟨by decide, c10_cstring_no_null_hangs [65, 66] 0 (by decide)⟩
